import Mathlib

/-!
Verification development for tybalt/models.py: the Tybalt VAE, the conditional
cTybalt VAE and the ADAGE denoising autoencoder.  Numeric values are embedded
as exact rationals; tensors as lists of rationals; the layer graphs as lists of
symbolic layer descriptors; the mutable Keras beta variable as a cell in an
explicit heap.
-/

namespace TybaltModel

/-! ## Warm-up scheduler -/

/-- Modelled from the spec: `WarmUpCallback` (tybalt/utils/vae_utils.py) is not
under src; the spec gives its epoch-end transition as
`beta <- min(1.0, beta + kappa)`. -/
def warmUpStep (kappa beta : ℚ) : ℚ := min 1 (beta + kappa)

/-- Beta after `n` end-of-epoch invocations of the warm-up step, starting
from the given beta value. -/
def warmUpIter (kappa : ℚ) : ℕ → ℚ → ℚ
  | 0, beta => beta
  | n + 1, beta => warmUpIter kappa n (warmUpStep kappa beta)

lemma warmUpIter_succ (kappa : ℚ) (n : ℕ) (beta : ℚ) :
    warmUpIter kappa (n + 1) beta = warmUpIter kappa n (warmUpStep kappa beta) := rfl

lemma warmUpStep_nonneg (kappa beta : ℚ) (hk : 0 ≤ kappa) (hb : 0 ≤ beta) :
    0 ≤ warmUpStep kappa beta :=
  le_min (by norm_num) (add_nonneg hb hk)

lemma warmUpStep_le_one (kappa beta : ℚ) : warmUpStep kappa beta ≤ 1 :=
  min_le_left 1 (beta + kappa)

lemma warmUpIter_bounds (kappa : ℚ) (hk : 0 ≤ kappa) (n : ℕ) :
    ∀ beta : ℚ, 0 ≤ beta → beta ≤ 1 →
      0 ≤ warmUpIter kappa n beta ∧ warmUpIter kappa n beta ≤ 1 := by
  induction n with
  | zero => intro beta hb0 hb1; exact ⟨hb0, hb1⟩
  | succ n ih =>
      intro beta hb0 _
      exact ih (warmUpStep kappa beta) (warmUpStep_nonneg kappa beta hk hb0)
        (warmUpStep_le_one kappa beta)

lemma warmUpStep_mono (kappa : ℚ) {b c : ℚ} (h : b ≤ c) :
    warmUpStep kappa b ≤ warmUpStep kappa c :=
  min_le_min le_rfl (add_le_add_right h kappa)

lemma warmUpIter_mono_init (kappa : ℚ) (n : ℕ) :
    ∀ {b c : ℚ}, b ≤ c → warmUpIter kappa n b ≤ warmUpIter kappa n c := by
  induction n with
  | zero => intro b c h; exact h
  | succ n ih => intro b c h; exact ih (warmUpStep_mono kappa h)

/-! ## Claim C1 -/

/-- C1: the warm-up scheduler updates beta by `beta <- min(1, beta + kappa)`
once per epoch; starting from beta = 0 with kappa = 1/10, beta is still below 1
after 9 invocations, equals 1 after exactly 10 invocations, and an 11th
invocation leaves it clamped at 1. -/
theorem C1_warmup_schedule :
    warmUpIter (1 / 10) 9 0 < 1 ∧ warmUpIter (1 / 10) 10 0 = 1 ∧
      warmUpIter (1 / 10) 11 0 = 1 := by
  refine ⟨?_, ?_, ?_⟩ <;> norm_num [warmUpIter, warmUpStep]

/-! ## Claim C6 -/

/-- C6: within one training run with a nonnegative warm-up rate, beta starts at
0 and satisfies 0 ≤ beta ≤ 1 at every epoch boundary, and is non-decreasing
from each epoch boundary to the next. -/
theorem C6_beta_invariant (kappa : ℚ) (hk : 0 ≤ kappa) (n : ℕ) :
    0 ≤ warmUpIter kappa n 0 ∧ warmUpIter kappa n 0 ≤ 1 ∧
      warmUpIter kappa n 0 ≤ warmUpIter kappa (n + 1) 0 := by
  obtain ⟨h0, h1⟩ := warmUpIter_bounds kappa hk n 0 le_rfl (by norm_num)
  refine ⟨h0, h1, ?_⟩
  rw [warmUpIter_succ]
  exact warmUpIter_mono_init kappa n (warmUpStep_nonneg kappa 0 hk le_rfl)

/-- Witness for C6 at kappa = 1/3 and epoch index 2. -/
theorem C6_beta_invariant_witness :
    (0 : ℚ) ≤ 1 / 3 ∧
      (0 ≤ warmUpIter (1 / 3) 2 0 ∧ warmUpIter (1 / 3) 2 0 ≤ 1 ∧
        warmUpIter (1 / 3) 2 0 ≤ warmUpIter (1 / 3) 3 0) :=
  ⟨by norm_num, C6_beta_invariant (1 / 3) (by norm_num) 2⟩

/-! ## Loss-decomposition tracker and the callbacks installed by train_vae -/

/-- State of the loss-decomposition tracker: the two ordered per-epoch
sequences it appends to. -/
structure LossTrackState where
  xent_loss : List ℚ
  kl_loss : List ℚ
  deriving DecidableEq

/-- Modelled from the spec: the body of `LossCallback`
(tybalt/utils/vae_utils.py) is not under src.  At each epoch end it runs its
stored dataset through the current encoder and then the current decoder and
appends the reconstruction term and the KL term to its two sequences.  The
numeric loss formulas involve log and exp, so the pair of terms computed from
the original and the reconstructed batch is kept as the explicit parameter
`lossTerms`. -/
def lossCallbackEpochEnd (lossTerms : List (List ℚ) → List (List ℚ) → ℚ × ℚ)
    (enc dec : List ℚ → List ℚ) (data : List (List ℚ))
    (s : LossTrackState) : LossTrackState :=
  let reconstructed := (data.map enc).map dec
  let t := lossTerms data reconstructed
  ⟨s.xent_loss ++ [t.1], s.kl_loss ++ [t.2]⟩

/-- Epoch boundary with tracking enabled: the training weights are passed
through untouched, only the tracker state is extended. -/
def epochBoundaryTracked (trainW : List ℚ)
    (lossTerms : List (List ℚ) → List (List ℚ) → ℚ × ℚ)
    (enc dec : List ℚ → List ℚ) (data : List (List ℚ))
    (s : LossTrackState) : List ℚ × LossTrackState :=
  (trainW, lossCallbackEpochEnd lossTerms enc dec data s)

/-- Symbolic descriptor of a Keras callback installed by `Tybalt.train_vae`:
the warm-up callback, or the loss tracker together with the dataset handed to
its `training_data` argument. -/
inductive TrainCbk where
  | warmUp : TrainCbk
  | lossTracker (data : List (List ℚ)) : TrainCbk
  deriving DecidableEq

/-- Embedding of the callback-list construction in `Tybalt.train_vae`
(src lines 125-131): `cbks = [WarmUpCallback(self.beta, self.kappa)]`, and when
`separate_loss` is set, `LossCallback(training_data=np.array(train_df), ...)`
is appended. -/
def train_vae_cbks (train_df test_df : List (List ℚ))
    (separate_loss : Bool) : List TrainCbk :=
  [TrainCbk.warmUp] ++
    (if separate_loss then [TrainCbk.lossTracker train_df] else [])

/-- Dataset handed to the first loss-tracker callback of a callback list, if
any. -/
def trackerDataOf : List TrainCbk → Option (List (List ℚ))
  | [] => none
  | TrainCbk.lossTracker d :: _ => some d
  | TrainCbk.warmUp :: rest => trackerDataOf rest

/-! ## Claim C2 -/

/-- C2 counterexample: with training set [[1]] and held-out validation set
[[2]], the loss tracker installed by train_vae is constructed over the
training set, not the validation set. -/
theorem C2_tracker_data_counterexample :
    trackerDataOf (train_vae_cbks [[(1 : ℚ)]] [[(2 : ℚ)]] true) =
        some [[(1 : ℚ)]] ∧
      some [[(1 : ℚ)]] ≠ some [[(2 : ℚ)]] := by
  constructor
  · rfl
  · decide

/-- C2 amended: when separate_loss is enabled, the tracker is constructed over
the TRAINING set (never present otherwise); at each epoch end it runs that
dataset through the current encoder and decoder and appends one
reconstruction-loss entry and one KL-loss entry to its two separate ordered
sequences, leaving the training weights untouched. -/
theorem C2_tracker_appends (train_df test_df : List (List ℚ))
    (lossTerms : List (List ℚ) → List (List ℚ) → ℚ × ℚ)
    (enc dec : List ℚ → List ℚ) (trainW : List ℚ) (s : LossTrackState) :
    trackerDataOf (train_vae_cbks train_df test_df true) = some train_df ∧
      trackerDataOf (train_vae_cbks train_df test_df false) = none ∧
      (lossCallbackEpochEnd lossTerms enc dec train_df s).xent_loss =
        s.xent_loss ++ [(lossTerms train_df ((train_df.map enc).map dec)).1] ∧
      (lossCallbackEpochEnd lossTerms enc dec train_df s).kl_loss =
        s.kl_loss ++ [(lossTerms train_df ((train_df.map enc).map dec)).2] ∧
      (epochBoundaryTracked trainW lossTerms enc dec train_df s).1 = trainW :=
  ⟨rfl, rfl, rfl, rfl, rfl⟩

/-! ## ADAGE layer graphs -/

/-- Symbolic layer descriptor for the ADAGE graphs. -/
inductive Layer where
  | dropout (rate : ℚ) : Layer
  | dense (units : ℕ) (l1 : ℚ) : Layer
  | relu : Layer
  | denseSigmoid (units : ℕ) : Layer
  | denseReluL1 (units : ℕ) (l1 : ℚ) : Layer
  | tiedDecoderSigmoid (units : ℕ) : Layer
  deriving DecidableEq

/-- Embedding of `Adage._build_graph` (src lines 307-317): input, dropout
corruption, linear dense encoding with L1 activity regularizer, relu, dense
sigmoid decoding. -/
def build_graph (original_dim latent_dim : ℕ) (noise sparsity : ℚ) :
    List Layer :=
  [Layer.dropout noise, Layer.dense latent_dim sparsity, Layer.relu,
   Layer.denseSigmoid original_dim]

/-- Embedding of `Adage._build_tied_weights_graph` (src lines 319-333): the
Sequential model adds the relu dense encoding first, then the dropout layer,
then the tied-weights sigmoid decoder. -/
def build_tied_weights_graph (original_dim latent_dim : ℕ)
    (noise sparsity : ℚ) : List Layer :=
  [Layer.denseReluL1 latent_dim sparsity, Layer.dropout noise,
   Layer.tiedDecoderSigmoid original_dim]

/-- Whether a layer is a dropout-style corruption layer. -/
def isDropout : Layer → Bool
  | Layer.dropout _ => true
  | _ => false

/-- Whether a layer is the dense encoding layer (with or without fused
relu). -/
def isDenseEncoding : Layer → Bool
  | Layer.dense _ _ => true
  | Layer.denseReluL1 _ _ => true
  | _ => false

/-- True when the graph holds a dropout layer strictly before its first dense
encoding layer. -/
def dropoutBeforeDense (ls : List Layer) : Bool :=
  match ls.findIdx? isDropout, ls.findIdx? isDenseEncoding with
  | some i, some j => i < j
  | _, _ => false

/-- Embedding of `Adage.train_adage` (src lines 367-374): fit is called with
the raw training frame both as input and as target, so the target is the
uncorrupted input. -/
def train_adage_io (train_df : List (List ℚ)) :
    List (List ℚ) × List (List ℚ) :=
  (train_df, train_df)

/-! ## Claim C3 -/

/-- C3 counterexample: in the tied-weights ADAGE graph (original_dim = 3,
latent_dim = 2, noise = 1/20, sparsity = 0) the dropout corruption does NOT
precede the dense encoding: the encoding is the first layer and dropout is
applied after it, to the latent code. -/
theorem C3_tied_dropout_counterexample :
    dropoutBeforeDense (build_tied_weights_graph 3 2 (1 / 20) 0) = false := by
  decide

/-- C3 amended: the untied ADAGE graph applies dropout corruption to the
rnaseq input, then the dense L1-regularized encoding, then relu, then the
dense sigmoid decoding; the tied-weights graph instead applies the relu dense
encoding first, then dropout to the latent code, then the tied sigmoid
decoder; both variants train with the uncorrupted input as the target. -/
theorem C3_graph_order (original_dim latent_dim : ℕ) (noise sparsity : ℚ)
    (train_df : List (List ℚ)) :
    build_graph original_dim latent_dim noise sparsity =
        [Layer.dropout noise, Layer.dense latent_dim sparsity, Layer.relu,
         Layer.denseSigmoid original_dim] ∧
      dropoutBeforeDense (build_graph original_dim latent_dim noise sparsity) =
        true ∧
      build_tied_weights_graph original_dim latent_dim noise sparsity =
        [Layer.denseReluL1 latent_dim sparsity, Layer.dropout noise,
         Layer.tiedDecoderSigmoid original_dim] ∧
      dropoutBeforeDense
          (build_tied_weights_graph original_dim latent_dim noise sparsity) =
        false ∧
      train_adage_io train_df = (train_df, train_df) :=
  ⟨rfl, rfl, rfl, rfl, rfl⟩

/-! ## Numeric layer primitives -/

/-- Dot product of two rational vectors. -/
def dot (u v : List ℚ) : ℚ := (List.zipWith (· * ·) u v).sum

/-- Dense layer: one output unit per weight row, `dot row x + bias`. -/
def dense (W : List (List ℚ)) (b : List ℚ) (x : List ℚ) : List ℚ :=
  List.zipWith (fun row bj => dot row x + bj) W b

/-- Elementwise relu. -/
def reluV (x : List ℚ) : List ℚ := x.map (max 0)

/-- Batch normalization at inference time: an elementwise affine transform
with the precomputed per-unit scale and shift (scale stands for
gamma / sqrt(var + eps), folded into a rational parameter; the claims settled
here depend only on the data flow, not on the value of the square root). -/
def bnorm (scale shift x : List ℚ) : List ℚ :=
  List.zipWith (· + ·) (List.zipWith (· * ·) scale x) shift

/-- Modelled from the spec: the VAE sampling function (`VAE._sampling` in
tybalt/utils/base.py, not under src) computes
`z = mu + exp(logvar / 2) * eps` elementwise; the exponential over ℚ is kept
as the explicit parameter `expHalf`, with `expHalf v` standing for
`exp(v / 2)`. -/
def sampling (expHalf : ℚ → ℚ) (mean logvar eps : List ℚ) : List ℚ :=
  List.zipWith (· + ·) mean
    (List.zipWith (· * ·) (logvar.map expHalf) eps)

/-! ## Data frames and compress -/

/-- Input table: sample identifiers and one row of features per sample. -/
structure DataFrame where
  index : List String
  values : List (List ℚ)
  deriving DecidableEq

/-- Output table of compress: sample identifiers, integer column labels and
one latent row per sample. -/
structure LatentFrame where
  index : List String
  columns : List ℕ
  values : List (List ℚ)
  deriving DecidableEq

/-- Embedding of `Adage.compress` (src lines 382-387): run the encoder over
the rows with `predict` and rebuild a frame with the original index and
columns `range(1, latent_dim + 1)`.  The trained weights are threaded through
unchanged: predict performs no gradient update. -/
def compress (latent_dim : ℕ) (encOf : List ℚ → List ℚ → List ℚ)
    (weights : List ℚ) (df : DataFrame) : LatentFrame × List ℚ :=
  (⟨df.index, List.range' 1 latent_dim, df.values.map (encOf weights)⟩,
   weights)

/-! ## Claim C4 -/

/-- C4: compress runs the data through the encoder only and returns a table
whose rows are the input sample identifiers in their original order, whose
columns are exactly the integers 1..latent_dim, and whose computation leaves
the trained weights untouched (no gradient update). -/
theorem C4_compress_shape (latent_dim : ℕ)
    (encOf : List ℚ → List ℚ → List ℚ) (weights : List ℚ) (df : DataFrame) :
    (compress latent_dim encOf weights df).1.index = df.index ∧
      (compress latent_dim encOf weights df).1.columns =
        (List.range latent_dim).map (fun k => k + 1) ∧
      (compress latent_dim encOf weights df).1.values =
        df.values.map (encOf weights) ∧
      (compress latent_dim encOf weights df).2 = weights := by
  refine ⟨rfl, ?_, rfl, rfl⟩
  show List.range' 1 latent_dim = (List.range latent_dim).map (fun k => k + 1)
  rw [List.range'_eq_map_range]
  exact List.map_congr_left (fun a _ => Nat.add_comm 1 a)

/-! ## Tybalt forward graph and its separated encoder -/

/-- Trained weights of the Tybalt graph: dense weights and biases, and the
inference-time batch-norm scale and shift, for the mean branch and the
log-variance branch. -/
structure TybaltWeights where
  mW : List (List ℚ)
  vW : List (List ℚ)
  mb : List ℚ
  vb : List ℚ
  mscale : List ℚ
  mshift : List ℚ
  vscale : List ℚ
  vshift : List ℚ
  deriving DecidableEq

/-- The tensors of the Tybalt encoder graph. -/
structure TybaltTensors where
  z_mean_enc : List ℚ
  z_var_enc : List ℚ
  z : List ℚ
  deriving DecidableEq

/-- Embedding of `Tybalt._build_encoder_layer` (src lines 48-77): each branch
is dense, then batch norm, then relu; `z` samples from the two encoded
branches with the given noise vector. -/
def tybaltForward (expHalf : ℚ → ℚ) (w : TybaltWeights)
    (x eps : List ℚ) : TybaltTensors :=
  let zm := reluV (bnorm w.mscale w.mshift (dense w.mW w.mb x))
  let zv := reluV (bnorm w.vscale w.vshift (dense w.vW w.vb x))
  { z_mean_enc := zm, z_var_enc := zv, z := sampling expHalf zm zv eps }

/-- Embedding of `Tybalt._connect_layers` (src line 108): the separated
encoder is `Model(rnaseq_input, z_mean_encoded)` - it outputs the encoded
mean tensor of the forward graph, not the sampled `z`. -/
def tybalt_encoder_out (expHalf : ℚ → ℚ) (w : TybaltWeights)
    (eps : List ℚ) (x : List ℚ) : List ℚ :=
  (tybaltForward expHalf w x eps).z_mean_enc

/-- Tybalt compress: the generic compress applied to the separated Tybalt
encoder. -/
def tybalt_compress (latent_dim : ℕ) (expHalf : ℚ → ℚ) (w : TybaltWeights)
    (eps : List ℚ) (df : DataFrame) : LatentFrame :=
  (compress latent_dim (fun _ x => tybalt_encoder_out expHalf w eps x)
    [] df).1

/-! ## Claim C5 -/

/-- C5: the separated Tybalt encoder outputs the encoded mean, which does not
depend on the sampling noise, so compress returns identical output across
calls regardless of the noise drawn; by contrast the sampled `z` tensor of the
same forward graph does change with the noise (concrete weights, input [1],
noise [0] versus [1]). -/
theorem C5_compress_deterministic (latent_dim : ℕ) (expHalf : ℚ → ℚ)
    (w : TybaltWeights) (x eps1 eps2 : List ℚ) (df : DataFrame) :
    tybalt_encoder_out expHalf w eps1 x = tybalt_encoder_out expHalf w eps2 x ∧
      tybalt_compress latent_dim expHalf w eps1 df =
        tybalt_compress latent_dim expHalf w eps2 df ∧
      (tybaltForward (fun _ => 1)
          (TybaltWeights.mk [[1]] [[1]] [0] [0] [1] [0] [1] [0]) [1] [0]).z ≠
        (tybaltForward (fun _ => 1)
          (TybaltWeights.mk [[1]] [[1]] [0] [0] [1] [0] [1] [0]) [1] [1]).z := by
  refine ⟨rfl, rfl, ?_⟩
  norm_num [tybaltForward, sampling, reluV, bnorm, dense, dot, max_def]

/-! ## ADAGE separated encoders -/

/-- Embedding of the untied branch of `Adage._connect_layers` (src line 354):
`Model(input_rnaseq, self.encoded)` where `self.encoded` is the output of the
linear dense layer of `_build_graph`, before the separate relu activation
(dropout is inactive at inference). -/
def untied_encoder (W : List (List ℚ)) (b : List ℚ) (x : List ℚ) : List ℚ :=
  dense W b x

/-- Embedding of the tied branch of `Adage._connect_layers` (src line 352):
`Model(self.encoded.input, self.encoded.output)` where `self.encoded` is the
dense layer of `_build_tied_weights_graph` with relu fused in
(the keyword argument activation=relu). -/
def tied_encoder (W : List (List ℚ)) (b : List ℚ) (x : List ℚ) : List ℚ :=
  reluV (dense W b x)

/-! ## Claim C10 -/

/-- C10: with tied weights the separated encoder applies relu inside its dense
layer, while the untied separated encoder stops at the pre-activation dense
output; so for identical weights the tied output is the relu of the untied
output, every tied coordinate is nonnegative, and at the concrete weights
W = [[-1]], b = [0], x = [1] the untied encoder returns the negative
coordinate -1 while the tied encoder returns 0. -/
theorem C10_encoder_preactivation (W : List (List ℚ)) (b x : List ℚ) :
    tied_encoder W b x = reluV (untied_encoder W b x) ∧
      (∀ q ∈ tied_encoder W b x, 0 ≤ q) ∧
      untied_encoder [[-1]] [0] [1] = [-1] ∧
      tied_encoder [[-1]] [0] [1] = [0] ∧
      ([-1] : List ℚ) ≠ [0] := by
  refine ⟨rfl, ?_, by norm_num [untied_encoder, dense, dot],
    by norm_num [tied_encoder, reluV, dense, dot, max_def], by norm_num⟩
  intro q hq
  simp only [tied_encoder, reluV, List.mem_map] at hq
  obtain ⟨a, _, ha⟩ := hq
  exact ha ▸ le_max_left 0 a

/-! ## ADAGE compilation and its optimizer dispatch -/

/-- Python errors relevant to `Adage._compile_adage`: referencing a local
variable that was never assigned, or a purposeful rejection of an unsupported
option. -/
inductive PyError where
  | unboundLocal (name : String) : PyError
  | unsupportedOption (kind : String) : PyError
  deriving DecidableEq

/-- Configured optimizer produced by a successful compilation. -/
inductive Optim where
  | adadelta (lr : ℚ) : Optim
  | adam (lr : ℚ) : Optim
  deriving DecidableEq

/-- Whether an error is a purposeful unsupported-option rejection. -/
def isUnsupportedOptionError : PyError → Bool
  | PyError.unsupportedOption _ => true
  | _ => false

/-- Embedding of `Adage._compile_adage` (src lines 335-341): an if/elif chain
on the optimizer string with no else branch, so for any other string the local
`optim` is never assigned and the subsequent `compile(optimizer=optim, ...)`
raises a Python UnboundLocalError. -/
def compile_adage (optimizer : String) (lr : ℚ) : Except PyError Optim :=
  if optimizer = "adadelta" then Except.ok (Optim.adadelta lr)
  else if optimizer = "adam" then Except.ok (Optim.adam lr)
  else Except.error (PyError.unboundLocal "optim")

/-! ## Claim C7 -/

/-- C7 counterexample: compiling with the unsupported optimizer string "sgd"
fails with an UnboundLocalError on the never-assigned local `optim`, which is
not an unsupported-option error. -/
theorem C7_unbound_local_counterexample :
    compile_adage "sgd" (1 / 2) =
        Except.error (PyError.unboundLocal "optim") ∧
      isUnsupportedOptionError (PyError.unboundLocal "optim") = false := by
  exact ⟨rfl, rfl⟩

/-- C7 amended: for every optimizer string other than "adadelta" and "adam",
compilation fails - there is no silent fallback to a default optimizer - but
the failure is an incidental UnboundLocalError on the never-assigned local
`optim`, not a purposeful unsupported-option error. -/
theorem C7_unsupported_optimizer_fails (optimizer : String) (lr : ℚ)
    (h1 : optimizer ≠ "adadelta") (h2 : optimizer ≠ "adam") :
    compile_adage optimizer lr =
      Except.error (PyError.unboundLocal "optim") := by
  simp [compile_adage, h1, h2]

/-- Witness for C7 at the optimizer string "sgd". -/
theorem C7_unsupported_optimizer_fails_witness :
    ("sgd" ≠ "adadelta") ∧ ("sgd" ≠ "adam") ∧
      compile_adage "sgd" 1 =
        Except.error (PyError.unboundLocal "optim") :=
  ⟨by decide, by decide,
    C7_unsupported_optimizer_fails "sgd" 1 (by decide) (by decide)⟩

/-! ## Lifecycle sequences -/

/-- Lifecycle actions of the model orchestrators. -/
inductive LifeStep where
  | buildGraph : LifeStep
  | buildTiedGraph : LifeStep
  | connectLayers : LifeStep
  | compileModel : LifeStep
  | trainModel : LifeStep
  | compressData : LifeStep
  | initModel : LifeStep
  | getSummary : LifeStep
  | visualizeArch : LifeStep
  | visualizeTraining : LifeStep
  | getDecoderWeights : LifeStep
  | saveModels : LifeStep
  deriving DecidableEq

/-- Embedding of `Adage.initialize_model` (src lines 356-365): build the
(tied or untied) graph, then connect the separate encoder and decoder, then
compile. -/
def adage_initialize_steps (tied_weights : Bool) : List LifeStep :=
  [(if tied_weights then LifeStep.buildTiedGraph else LifeStep.buildGraph),
   LifeStep.connectLayers, LifeStep.compileModel]

/-- Embedding of the cTybalt usage lifecycle documented in the class
docstring (src lines 159-170): initialize_model, get_summary,
visualize_architecture, train_cvae, visualize_training, connect_layers,
compress, get_decoder_weights, save_models. -/
def ctybalt_api_steps : List LifeStep :=
  [LifeStep.initModel, LifeStep.getSummary, LifeStep.visualizeArch,
   LifeStep.trainModel, LifeStep.visualizeTraining, LifeStep.connectLayers,
   LifeStep.compressData, LifeStep.getDecoderWeights, LifeStep.saveModels]

/-- Position of a lifecycle step in a sequence. -/
def stepIdx (s : LifeStep) (ls : List LifeStep) : Option ℕ :=
  ls.findIdx? (fun t => t = s)

/-! ## Claim C8 -/

/-- C8 counterexample: in the cTybalt lifecycle documented in the source, the
layers-connected step sits at position 5, after training at position 3, so the
layers-connected step does not precede training. -/
theorem C8_ctybalt_connect_after_train_counterexample :
    stepIdx LifeStep.trainModel ctybalt_api_steps = some 3 ∧
      stepIdx LifeStep.connectLayers ctybalt_api_steps = some 5 ∧
      ¬ (5 : ℕ) < 3 := by
  exact ⟨by decide, by decide, by decide⟩

/-- C8 amended: Adage.initialize_model passes through graph-built,
layers-connected, compiled in that order (layers-connected precedes
compilation), and the documented cTybalt lifecycle runs training before the
layers-connected step, which in turn precedes compress. -/
theorem C8_lifecycle_order (tied_weights : Bool) :
    stepIdx LifeStep.connectLayers (adage_initialize_steps tied_weights) =
        some 1 ∧
      stepIdx LifeStep.compileModel (adage_initialize_steps tied_weights) =
        some 2 ∧
      stepIdx LifeStep.trainModel ctybalt_api_steps = some 3 ∧
      stepIdx LifeStep.connectLayers ctybalt_api_steps = some 5 ∧
      stepIdx LifeStep.compressData ctybalt_api_steps = some 6 := by
  cases tied_weights <;> exact ⟨by decide, by decide, by decide, by decide,
    by decide⟩

/-! ## Shared mutable beta default cells -/

/-- Allocate a fresh mutable cell holding the given value; returns the new
heap and the address of the cell. -/
def alloc (heap : List ℚ) (v : ℚ) : List ℚ × ℕ :=
  (heap ++ [v], heap.length)

/-- Read a cell. -/
def readCell (heap : List ℚ) (a : ℕ) : ℚ := heap.getD a 0

/-- Write a cell. -/
def writeCell (heap : List ℚ) (a : ℕ) (v : ℚ) : List ℚ := heap.set a v

/-- The default-argument cells created when the module is defined. -/
structure ModuleDefaults where
  tybaltBeta : ℕ
  ctybaltBeta : ℕ
  deriving DecidableEq

/-- Embedding of module definition time: each of `Tybalt.__init__`
(src line 33) and `cTybalt.__init__` (src line 174) evaluates its default
expression `beta=K.variable(0)` exactly once, when the def statement is
executed, allocating one mutable Keras variable per class. -/
def module_import : List ℚ × ModuleDefaults :=
  let t := alloc [] 0
  let c := alloc t.1 0
  (c.1, ⟨t.2, c.2⟩)

/-- Embedding of `Tybalt.__init__`: with no explicit beta argument the
instance binds the class default cell; an explicit beta value allocates a
fresh cell. -/
def tybalt_init (heap : List ℚ) (d : ModuleDefaults)
    (betaArg : Option ℚ) : List ℚ × ℕ :=
  match betaArg with
  | none => (heap, d.tybaltBeta)
  | some v => alloc heap v

/-- Embedding of `cTybalt.__init__`, likewise over the cTybalt default
cell. -/
def ctybalt_init (heap : List ℚ) (d : ModuleDefaults)
    (betaArg : Option ℚ) : List ℚ × ℕ :=
  match betaArg with
  | none => (heap, d.ctybaltBeta)
  | some v => alloc heap v

/-- The warm-up scheduler update performed through a beta cell. -/
def warmUpOnCell (heap : List ℚ) (a : ℕ) (kappa : ℚ) : List ℚ :=
  writeCell heap a (warmUpStep kappa (readCell heap a))

/-! ## Claim C9 -/

/-- C9 counterexample: after the module is imported, construct two default
Tybalt models and one default cTybalt model and run one warm-up update with
kappa = 1/2 through the beta cell of the first Tybalt model; the second Tybalt
model now reads 1/2 (shared cell), but the default-constructed cTybalt model
still reads 0, because the two classes own distinct default cells - so the
update does not change the beta read by every other default-constructed
model. -/
theorem C9_cross_class_counterexample :
    (tybalt_init module_import.1 module_import.2 none).2 =
        module_import.2.tybaltBeta ∧
      (ctybalt_init module_import.1 module_import.2 none).2 =
        module_import.2.ctybaltBeta ∧
      module_import.2.tybaltBeta ≠ module_import.2.ctybaltBeta ∧
      readCell (warmUpOnCell module_import.1 module_import.2.tybaltBeta (1 / 2))
          module_import.2.tybaltBeta = 1 / 2 ∧
      readCell (warmUpOnCell module_import.1 module_import.2.tybaltBeta (1 / 2))
          module_import.2.ctybaltBeta = 0 ∧
      (0 : ℚ) ≠ 1 / 2 := by
  refine ⟨rfl, rfl, by decide, ?_, ?_, by norm_num⟩
  · show readCell (writeCell [0, 0] 0 (warmUpStep (1 / 2) (readCell [0, 0] 0)))
        0 = 1 / 2
    norm_num [readCell, writeCell, warmUpStep]
  · rfl

/-- C9 amended: each class owns a single default beta cell created once at
class-definition time; every instance of that class constructed without an
explicit beta argument binds that same cell (an explicit beta gets a fresh
cell), and a warm-up update through one default instance is read back by every
other default instance of the same class - but Tybalt and cTybalt own distinct
default cells, so the update is not seen across classes. -/
theorem C9_per_class_shared_beta (heap : List ℚ) (d : ModuleDefaults)
    (v kappa : ℚ) :
    (tybalt_init heap d none).2 = d.tybaltBeta ∧
      (ctybalt_init heap d none).2 = d.ctybaltBeta ∧
      (tybalt_init heap d (some v)).2 = heap.length ∧
      module_import.2.tybaltBeta ≠ module_import.2.ctybaltBeta ∧
      readCell (warmUpOnCell module_import.1 module_import.2.tybaltBeta kappa)
          module_import.2.tybaltBeta = warmUpStep kappa 0 ∧
      readCell (warmUpOnCell module_import.1 module_import.2.tybaltBeta kappa)
          module_import.2.ctybaltBeta = 0 := by
  refine ⟨rfl, rfl, rfl, by decide, ?_, rfl⟩
  show readCell (writeCell [0, 0] 0 (warmUpStep kappa (readCell [0, 0] 0)))
      0 = warmUpStep kappa 0
  rfl

end TybaltModel
